import Mathlib

/-
Verification of the message-dispatch core of the iot-azure repository.

Shallow embedding of the Python sources:
  - azure-iot-example_thread.py : send_with_timeout, connect_to_iot_hub,
    status, sender_task, command_processor_task, restart_cmd,
    restart_slave_task
  - my_azure.py                 : Client.send_with_timeout,
    Client.connect_to_iot_hub
  - azure-iot-thread-simple.py  : command_processor_task, restart_cmd,
    set_slave_ip_cmd, stop_cmd
  - slave.py                    : Slave.power_cycle (as an event of the
    restart schedule model)

Python exceptions are made explicit (Except / PyResult), machine state is
passed explicitly, and the thread interleaving relevant to the restart
command is modelled by enumerating schedules.
-/

namespace IotAzure

/-- Python exceptions that the embedded code can raise or catch. -/
inductive PyExc
  | nameError       -- evaluating an unbound name (e.g. the local future, retry_interval)
  | timeoutError    -- concurrent.futures.TimeoutError
  | sendFailure     -- any other exception out of the azure client call
  | attributeError  -- calling .get on a payload that is not a dict
deriving DecidableEq, Repr

/-- Outcome of a Python call that either returns a Bool or raises. -/
inductive PyResult
  | ret (b : Bool)
  | raise (e : PyExc)
deriving DecidableEq, Repr

/-- Behaviour of the underlying azure client delivery call
(client.send_message / client.patch_twin_reported_properties), an external
collaborator: it completes within the timeout, exceeds it, or raises. -/
inductive SendOutcome
  | delivered
  | timeout
  | failure
deriving DecidableEq, Repr

/-- Outbound message: the source enqueues pairs [MSGTYPE[i], payload]
(azure-iot-example_thread.py, sensor_task / heartbeat_task / main). -/
structure Msg where
  kind : String
  payload : String
deriving DecidableEq, Repr

/-- MSGTYPE = ["telemetry", "propertyUpdate"] (azure-iot-example_thread.py line 30). -/
def MSGTYPE : List String := ["telemetry", "propertyUpdate"]

/-- Result of one send_with_timeout call: the Python-level outcome plus how
many times executor.submit was reached (0 means the delivery future was
never bound). -/
structure SendCall where
  result : PyResult
  submits : Nat
deriving DecidableEq, Repr

/-- The local variable future of send_with_timeout
(azure-iot-example_thread.py lines 273-278): bound only by the telemetry
and propertyUpdate branches of the if/elif chain; for any other kind the
name stays unbound (modelled as none). -/
def boundFuture (outcome : SendOutcome) (kind : String) : Option SendOutcome :=
  if kind = "telemetry" then some outcome          -- MSGTYPE[0]
  else if kind = "propertyUpdate" then some outcome -- MSGTYPE[1]
  else none

/-- Evaluation of future.result(timeout=timeout_sec)
(azure-iot-example_thread.py line 281).  When future is unbound Python
raises NameError at this expression, inside the try block. -/
def futureResult : Option SendOutcome → Except PyExc Unit
  | none => Except.error PyExc.nameError
  | some SendOutcome.delivered => Except.ok ()
  | some SendOutcome.timeout => Except.error PyExc.timeoutError
  | some SendOutcome.failure => Except.error PyExc.sendFailure

/-- The try/except around future.result (azure-iot-example_thread.py lines
280-291): success returns True; except TimeoutError returns False; the
trailing except Exception catches everything else (including the NameError
of an unbound future) and returns False. -/
def tryFutureResult (future : Option SendOutcome) : SendCall :=
  let submits := if future.isSome then 1 else 0
  match futureResult future with
  | Except.ok _ => { result := PyResult.ret true, submits := submits }
  | Except.error PyExc.timeoutError => { result := PyResult.ret false, submits := submits }
  | Except.error _ => { result := PyResult.ret false, submits := submits }

/-- Embedding of send_with_timeout (azure-iot-example_thread.py lines
267-291): a None message is reported as success with nothing submitted;
otherwise the future is bound (or not) by the message kind and the
try/except supplies the boolean result. -/
def send_with_timeout (outcome : SendOutcome) (message : Option Msg) : SendCall :=
  match message with
  | none => { result := PyResult.ret true, submits := 0 }
  | some m => tryFutureResult (boundFuture outcome m.kind)

/-- Message pair of my_azure.py: {"type": MSGTYPE[i], "msg": payload}. -/
structure ClientMsg where
  type : String
  msg : String
deriving DecidableEq, Repr

/-- MSGTYPE = ["TELEMETRY", "PROPERTY"] (my_azure.py line 13). -/
def MSGTYPE_client : List String := ["TELEMETRY", "PROPERTY"]

/-- The local future of my_azure.Client.send_with_timeout (lines 77-82). -/
def boundFutureClient (outcome : SendOutcome) (type : String) : Option SendOutcome :=
  if type = "TELEMETRY" then some outcome          -- MSGTYPE[0]
  else if type = "PROPERTY" then some outcome      -- MSGTYPE[1]
  else none

/-- Embedding of my_azure.Client.send_with_timeout (lines 70-95): identical
control flow to the script-level send_with_timeout, with the dict-shaped
message and the TELEMETRY/PROPERTY kind strings. -/
def Client.send_with_timeout (outcome : SendOutcome) (message : Option ClientMsg) : SendCall :=
  match message with
  | none => { result := PyResult.ret true, submits := 0 }
  | some m => tryFutureResult (boundFutureClient outcome m.type)

/-- State of the azure device client observed by the connect functions:
client.connected plus whether the inbound handlers have been (re)assigned
after the lock block. -/
structure IotClient where
  connected : Bool
  handlerRegistered : Bool
deriving DecidableEq, Repr

/-- Embedding of my_azure.Client.connect_to_iot_hub (lines 97-110), driven
by a handshake oracle for self.client.connect(): under the lock, if not
connected it attempts the handshake; a raising handshake is caught, logged
and followed by time.sleep(RECONNECT_INTERVAL); after the lock the method
handler is assigned and the function returns True unconditionally. -/
def connect_to_iot_hub (handshakeOk : Bool) (cl : IotClient) : Bool × IotClient :=
  let cl1 :=
    if cl.connected then cl
    else if handshakeOk then { cl with connected := true }
    else cl
  (true, { cl1 with handlerRegistered := true })

/-- Embedding of connect_to_iot_hub (azure-iot-example_thread.py lines
335-350): same shape, but its except branch evaluates the undefined name
retry_interval in time.sleep(retry_interval), so a failed handshake raises
NameError out of the function instead of reaching return True. -/
def connect_to_iot_hub_thread (handshakeOk : Bool) (cl : IotClient) :
    Except PyExc (Bool × IotClient) :=
  if cl.connected then
    Except.ok (true, { cl with handlerRegistered := true })
  else if handshakeOk then
    Except.ok (true, { connected := true, handlerRegistered := true })
  else
    Except.error PyExc.nameError

/-- Embedding of status() (azure-iot-example_thread.py lines 55-62), a pure
function of the globals ERROR_STATE and SLAVE_READY_STATE.  The spec calls
the subordinate device "actuator", so its AwaitingActuator label is the
source's "AwaitingSlave" string. -/
def status (ERROR_STATE SLAVE_READY_STATE : Bool) : String :=
  if ERROR_STATE then "Error"
  else if !SLAVE_READY_STATE then "AwaitingSlave"
  else "Ready"

/-- queue.Queue.put: FIFO, so an enqueued element goes to the tail. -/
def queuePut (q : List Msg) (m : Msg) : List Msg := q ++ [m]

/-- Sender-side observable state: the outbound send_queue (head = front)
and the sequence of messages the azure client actually sent. -/
structure SenderState where
  queue : List Msg
  delivered : List Msg
deriving DecidableEq, Repr

/-- One iteration of the sender_task loop (azure-iot-example_thread.py
lines 511-539) after the network-reachability poll has succeeded:
dequeue the front message, call connect_to_iot_hub (whose NameError on a
failed handshake propagates and kills the thread; a False return would
re-enqueue and sleep), then call send_with_timeout inside try/except.
The boolean result of send_with_timeout is ignored: only a raising call
reaches the except branch that re-enqueues the message at the tail. -/
def sender_step (handshakeOk : Bool) (outcome : SendOutcome) (cl : IotClient)
    (s : SenderState) : Except PyExc (SenderState × IotClient) :=
  match s.queue with
  | [] => Except.ok (s, cl)
  | msg :: rest =>
    match connect_to_iot_hub_thread handshakeOk cl with
    | Except.error e => Except.error e
    | Except.ok (ok, cl2) =>
      if ok then
        match (send_with_timeout outcome (some msg)).result with
        | PyResult.ret b =>
          Except.ok ({ queue := rest,
                       delivered := if b then s.delivered ++ [msg] else s.delivered }, cl2)
        | PyResult.raise _ =>
          Except.ok ({ queue := queuePut rest msg, delivered := s.delivered }, cl2)
      else
        Except.ok ({ queue := queuePut rest msg, delivered := s.delivered }, cl2)

/-- Iterated sender_task under the no-failure assumption of §8: the network
check passes, every handshake succeeds and every delivery attempt
completes within the timeout. -/
def sender_run_ok : Nat → IotClient → SenderState → SenderState
  | 0, _, s => s
  | Nat.succ n, cl, s =>
    match sender_step true SendOutcome.delivered cl s with
    | Except.ok (s2, cl2) => sender_run_ok n cl2 s2
    | Except.error _ => s

/-- Command payload as the handlers see it: either a dict (string keys and
values) or any non-dict value, on which .get raises AttributeError. -/
inductive Payload
  | dict (entries : List (String × String))
  | nonDict
deriving DecidableEq, Repr

/-- payload.get(key, default): defaulting lookup on a dict, AttributeError
on anything else. -/
def Payload.get (p : Payload) (key dflt : String) : Except PyExc String :=
  match p with
  | Payload.dict entries => Except.ok ((entries.lookup key).getD dflt)
  | Payload.nonDict => Except.error PyExc.attributeError

/-- Embedding of restart_cmd (azure-iot-example_thread.py lines 456-462 and
azure-iot-thread-simple.py lines 180-186): reads delay and reason from the
payload (raising on a non-dict payload), spawns the restart_slave_task
thread (modelled by the schedule semantics below) and returns
("restarted", 200) immediately. -/
def restart_cmd (cmd_payload : Payload) : Except PyExc (String × Int) :=
  match cmd_payload.get "delay" "0" with
  | Except.error e => Except.error e
  | Except.ok _delay =>
    match cmd_payload.get "reason" "unspecified" with
    | Except.error e => Except.error e
    | Except.ok _reason => Except.ok ("restarted", 200)

/-- Embedding of set_slave_ip_cmd (azure-iot-thread-simple.py lines
193-198): reads the IP from the payload, stores it in SLAVE_CONFIG and
returns ("updated", 200). -/
def set_slave_ip_cmd (cmd_payload : Payload) : Except PyExc (String × Int) :=
  match cmd_payload.get "IP" "0" with
  | Except.error e => Except.error e
  | Except.ok _ip => Except.ok ("updated", 200)

/-- Embedding of stop_cmd (azure-iot-thread-simple.py lines 188-191):
spawns stop_task and returns ("Recived", 999). -/
def stop_cmd : Except PyExc (String × Int) :=
  Except.ok ("Recived", 999)

/-- The three routed handlers of azure-iot-thread-simple.py, as parameters
so that routing facts independent of handler behaviour can be stated. -/
structure Handlers where
  restart : Payload → Except PyExc (String × Int)
  setSlaveIp : Payload → Except PyExc (String × Int)
  stop : Unit → Except PyExc (String × Int)

/-- The handlers as defined in the source. -/
def srcHandlers : Handlers :=
  { restart := restart_cmd
    setSlaveIp := set_slave_ip_cmd
    stop := fun _ => stop_cmd }

/-- COMMAND ROUTING of command_processor_task (azure-iot-thread-simple.py
lines 211-221): name-to-handler if/elif chain; unmatched names yield
("Unknown command", 404). -/
def route_simple (h : Handlers) (name : String) (p : Payload) :
    Except PyExc (String × Int) :=
  if name = "RestartSlave" then h.restart p
  else if name = "SetSlaveIP" then h.setSlaveIp p
  else if name = "Stop" then h.stop ()
  else Except.ok ("Unknown command", 404)

/-- COMMAND ROUTING of command_processor_task
(azure-iot-example_thread.py lines 476-491): only the restart command is
routed; everything else yields ("Unknown command", 404). -/
def route_thread (restartHandler : Payload → Except PyExc (String × Int))
    (name : String) (p : Payload) : Except PyExc (String × Int) :=
  if name = "restart" then restartHandler p
  else Except.ok ("Unknown command", 404)

/-- Inbound direct-method request (azure MethodRequest): name, payload and
the correlation token (request id). -/
structure CommandRequest where
  name : String
  payload : Payload
  token : Nat
deriving DecidableEq, Repr

/-- Outbound method response: MethodResponse.create_from_method_request
copies the request id (correlation token) and carries the status code and
the {"status", "code"} body. -/
structure CommandResponse where
  token : Nat
  statusCode : Int
  body : String
deriving DecidableEq, Repr

/-- One pass of the command_processor_task loop body
(azure-iot-thread-simple.py lines 204-236) for a consumed request: routing
inside try (any exception maps to ("error", 500)), then exactly one
MethodResponse is created from the request and sent. -/
def process_request (h : Handlers) (req : CommandRequest) : CommandResponse :=
  let sc : String × Int :=
    match route_simple h req.name req.payload with
    | Except.ok sc => sc
    | Except.error _ => ("error", 500)
  { token := req.token, statusCode := sc.2, body := sc.1 }

/-- Same loop body for azure-iot-example_thread.py (lines 464-506). -/
def process_request_thread (restartHandler : Payload → Except PyExc (String × Int))
    (req : CommandRequest) : CommandResponse :=
  let sc : String × Int :=
    match route_thread restartHandler req.name req.payload with
    | Except.ok sc => sc
    | Except.error _ => ("error", 500)
  { token := req.token, statusCode := sc.2, body := sc.1 }

/-- The dispatcher loop over the sequence of requests it consumes from the
command queue: one response per consumed request, in order. -/
def command_processor_run (h : Handlers) (reqs : List CommandRequest) :
    List CommandResponse :=
  reqs.map (process_request h)

/-- Events of a restart command execution: the dispatcher spawns the
restart_slave_task thread (restart_cmd, azure-iot-example_thread.py line
461) and then sends its own response; the spawned task runs
restart_slave_task (lines 439-454): SLAVE_READY_STATE = False, the delay
sleep, Slave.power_cycle (slave.py lines 11-16, blocking off_duration),
SLAVE_READY_STATE = True. -/
inductive Ev
  | spawn       -- threading.Thread(target=restart_slave_task).start()
  | respond     -- client.send_method_response(response)
  | setFalse    -- SLAVE_READY_STATE = False
  | sleepDelay  -- time.sleep(delay_sec)
  | powerCycle  -- Slave(...).power_cycle(off_duration=...)
  | setTrue     -- SLAVE_READY_STATE = True
deriving DecidableEq, Repr

/-- Program order of the dispatcher thread while handling a restart. -/
def dispatcherEvs : List Ev := [Ev.spawn, Ev.respond]

/-- Program order of the spawned restart_slave_task thread. -/
def restartTaskEvs : List Ev := [Ev.setFalse, Ev.sleepDelay, Ev.powerCycle, Ev.setTrue]

/-- All order-preserving interleavings of two event lists; the fuel only
bounds the recursion and any fuel at least the total length is exact. -/
def interleavings (fuel : Nat) (xs ys : List Ev) : List (List Ev) :=
  match fuel, xs, ys with
  | _, [], ys => [ys]
  | _, x :: xs2, [] => [x :: xs2]
  | 0, _, _ => []
  | Nat.succ f, x :: xs2, y :: ys2 =>
    (interleavings f xs2 (y :: ys2)).map (fun t => x :: t) ++
    (interleavings f (x :: xs2) ys2).map (fun t => y :: t)

/-- The schedules a restart command can produce: both threads keep their
program order, and the spawned task can only run after being spawned. -/
def validSchedules : List (List Ev) :=
  (interleavings 6 dispatcherEvs restartTaskEvs).filter
    (fun s => s.indexOf Ev.spawn < s.indexOf Ev.setFalse)

/-- Observable restart state: SLAVE_READY_STATE and whether the method
response has been sent. -/
structure RestartObs where
  ready : Bool
  responded : Bool
deriving DecidableEq, Repr

/-- Effect of one event on the observable state. -/
def stepEv (st : RestartObs) : Ev → RestartObs
  | Ev.setFalse => { st with ready := false }
  | Ev.setTrue => { st with ready := true }
  | Ev.respond => { st with responded := true }
  | _ => st

/-- Execution of a whole schedule. -/
def runSched (s : List Ev) (st : RestartObs) : RestartObs := s.foldl stepEv st

/-- The schedule in which the spawned task runs to completion before the
dispatcher sends the response: the worker thread starts immediately at
Thread.start(), so nothing in the source prevents it. -/
def eagerWorkerSched : List Ev :=
  [Ev.spawn, Ev.setFalse, Ev.sleepDelay, Ev.powerCycle, Ev.setTrue, Ev.respond]

/-- Concrete Stop request used to exhibit the 999 status code. -/
def stopReq : CommandRequest :=
  { name := "Stop", payload := Payload.dict [], token := 7 }

/-- Concrete producer sequence for the FIFO witness. -/
def fifoMsgs : List Msg :=
  [{ kind := "telemetry", payload := "t1" },
   { kind := "propertyUpdate", payload := "p1" },
   { kind := "telemetry", payload := "t2" }]

/-! Helper lemmas (shared facts about the embedded definitions). -/

/-- With a reachable network and a succeeding handshake, the thread-file
connect_to_iot_hub returns True with a connected client, whatever the
previous client state. -/
theorem connect_thread_ok (cl : IotClient) :
    connect_to_iot_hub_thread true cl =
      Except.ok (true, { connected := true, handlerRegistered := true }) := by
  rcases cl with ⟨c, hr⟩
  cases c <;> rfl

/-- A delivery attempt on a message of a known kind that completes within
the timeout makes send_with_timeout return True. -/
theorem send_delivered_ret_true (m : Msg)
    (hm : m.kind = "telemetry" ∨ m.kind = "propertyUpdate") :
    (send_with_timeout SendOutcome.delivered (some m)).result = PyResult.ret true := by
  rcases hm with hm | hm <;>
    simp [send_with_timeout, tryFutureResult, boundFuture, futureResult, hm]

/-- A delivery attempt that does not complete (timeout or error) makes
send_with_timeout return False for every message: the internal try/except
converts both failures, and the unbound-future NameError, into False. -/
theorem send_not_delivered_ret_false (o : SendOutcome) (m : Msg)
    (ho : o ≠ SendOutcome.delivered) :
    (send_with_timeout o (some m)).result = PyResult.ret false := by
  rcases o with _ | _ | _
  · exact absurd rfl ho
  all_goals
    by_cases h1 : m.kind = "telemetry"
    case pos =>
      simp [send_with_timeout, tryFutureResult, boundFuture, futureResult, h1]
    case neg =>
      by_cases h2 : m.kind = "propertyUpdate" <;>
        simp [send_with_timeout, tryFutureResult, boundFuture, futureResult, h1, h2]

/-- One no-failure sender iteration: the front message is dequeued,
delivered, and appended to the delivered sequence. -/
theorem sender_step_delivered (cl : IotClient) (m : Msg) (rest acc : List Msg)
    (hm : m.kind = "telemetry" ∨ m.kind = "propertyUpdate") :
    sender_step true SendOutcome.delivered cl { queue := m :: rest, delivered := acc } =
      Except.ok ({ queue := rest, delivered := acc ++ [m] },
                 { connected := true, handlerRegistered := true }) := by
  simp only [sender_step, connect_thread_ok, send_delivered_ret_true m hm]
  rfl

/-- Running the no-failure sender for as many steps as there are queued
messages empties the queue and delivers the messages in queue order. -/
theorem sender_run_ok_spec (msgs : List Msg)
    (h : ∀ m ∈ msgs, m.kind = "telemetry" ∨ m.kind = "propertyUpdate") :
    ∀ (cl : IotClient) (acc : List Msg),
      sender_run_ok msgs.length cl { queue := msgs, delivered := acc } =
        { queue := [], delivered := acc ++ msgs } := by
  induction msgs with
  | nil => intro cl acc; simp [sender_run_ok]
  | cons m rest ih =>
    intro cl acc
    have hm := h m (List.mem_cons_self m rest)
    have hr : ∀ x ∈ rest, x.kind = "telemetry" ∨ x.kind = "propertyUpdate" :=
      fun x hx => h x (List.mem_cons_of_mem m hx)
    simp only [List.length_cons, sender_run_ok, sender_step_delivered cl m rest acc hm]
    rw [ih hr]
    simp

/-- Every route of the simple-file dispatcher with the source handlers ends
in one of the five concrete results. -/
theorem route_simple_src_result (name : String) (p : Payload) :
    route_simple srcHandlers name p = Except.ok ("restarted", 200) ∨
    route_simple srcHandlers name p = Except.ok ("updated", 200) ∨
    route_simple srcHandlers name p = Except.ok ("Recived", 999) ∨
    route_simple srcHandlers name p = Except.ok ("Unknown command", 404) ∨
    route_simple srcHandlers name p = Except.error PyExc.attributeError := by
  unfold route_simple srcHandlers
  by_cases h1 : name = "RestartSlave"
  · cases p <;> simp [h1, restart_cmd, Payload.get]
  · by_cases h2 : name = "SetSlaveIP"
    · cases p <;> simp [h1, h2, set_slave_ip_cmd, Payload.get]
    · by_cases h3 : name = "Stop" <;> simp [h1, h2, h3, stop_cmd]

/-! Claim theorems. -/

/-- Claim C1 (code bug, evaluation at the failing inputs): when the
network is up, the client connected and the delivery attempt fails by
timeout or by error, sender_task does NOT re-enqueue the dequeued message:
send_with_timeout catches the failure internally and returns False, the
sender ignores that boolean, and the message leaves the queue without
being delivered — it is dropped, where the claim requires it back at the
tail of the queue. -/
theorem sender_drops_failed_send (m : Msg) (rest acc : List Msg) :
    sender_step true SendOutcome.timeout { connected := true, handlerRegistered := true }
        { queue := m :: rest, delivered := acc } =
      Except.ok ({ queue := rest, delivered := acc },
                 { connected := true, handlerRegistered := true }) ∧
    sender_step true SendOutcome.failure { connected := true, handlerRegistered := true }
        { queue := m :: rest, delivered := acc } =
      Except.ok ({ queue := rest, delivered := acc },
                 { connected := true, handlerRegistered := true }) := by
  constructor
  · simp only [sender_step, connect_thread_ok,
      send_not_delivered_ret_false SendOutcome.timeout m (by simp)]
    rfl
  · simp only [sender_step, connect_thread_ok,
      send_not_delivered_ret_false SendOutcome.failure m (by simp)]
    rfl

/-- Claim C2 (code bug, evaluation at the failing input): with the session
disconnected and the handshake failing, my_azure.Client.connect_to_iot_hub
still returns True (success) and leaves the client disconnected — the
final return True is unconditional, so the claimed failure return never
happens; when already connected it does return success immediately for
any handshake oracle; and the thread-file variant instead raises NameError
(undefined retry_interval) on a failed handshake, so it too never returns
failure. -/
theorem connect_reports_success_on_failed_handshake :
    connect_to_iot_hub false { connected := false, handlerRegistered := false } =
      (true, { connected := false, handlerRegistered := true }) ∧
    (∀ hs hr : Bool,
      connect_to_iot_hub hs { connected := true, handlerRegistered := hr } =
        (true, { connected := true, handlerRegistered := true })) ∧
    connect_to_iot_hub_thread false { connected := false, handlerRegistered := false } =
      Except.error PyExc.nameError :=
  ⟨rfl, fun _ _ => rfl, rfl⟩

/-- Claim C3 (confirmed): the dispatcher emits exactly one response per
consumed request; a request whose routed handler raises gets the
("error", 500) response with its own token; and the loop keeps processing
the surrounding requests unchanged, so a handler failure never terminates
it. -/
theorem dispatcher_exactly_one_response (h : Handlers) (reqs : List CommandRequest) :
    (command_processor_run h reqs).length = reqs.length ∧
    (∀ (req : CommandRequest) (e : PyExc),
        route_simple h req.name req.payload = Except.error e →
        process_request h req =
          { token := req.token, statusCode := 500, body := "error" }) ∧
    (∀ (pre : List CommandRequest) (req : CommandRequest) (post : List CommandRequest),
        command_processor_run h (pre ++ req :: post) =
          command_processor_run h pre ++
            process_request h req :: command_processor_run h post) := by
  refine ⟨by simp [command_processor_run], ?_, ?_⟩
  · intro req e he
    simp [process_request, he]
  · intro pre req post
    simp [command_processor_run]

/-- Witness for C3: a RestartSlave request whose payload is not a dict
makes the routed handler raise AttributeError, and the dispatcher answers
it with the single ("error", 500) response. -/
theorem dispatcher_exactly_one_response_witness :
    route_simple srcHandlers "RestartSlave" Payload.nonDict =
      Except.error PyExc.attributeError ∧
    process_request srcHandlers
        { name := "RestartSlave", payload := Payload.nonDict, token := 5 } =
      { token := 5, statusCode := 500, body := "error" } :=
  ⟨rfl, (dispatcher_exactly_one_response srcHandlers []).2.1
    { name := "RestartSlave", payload := Payload.nonDict, token := 5 }
    PyExc.attributeError rfl⟩

/-- Claim C4 counterexample: the Stop command is answered with status code
999, which is neither in {200, 404, 500} nor a 2xx code. -/
theorem stop_command_code_999 :
    (process_request srcHandlers stopReq).statusCode = 999 ∧
    ¬ ((process_request srcHandlers stopReq).statusCode ∈ ([200, 404, 500] : List Int) ∨
       (200 ≤ (process_request srcHandlers stopReq).statusCode ∧
        (process_request srcHandlers stopReq).statusCode < 300)) := by
  decide

/-- Claim C4 (amended): every response the dispatcher produces is
correlated to its request by the token, and its status code lies in
{200, 404, 500, 999} — 999 being the handler-defined code of the Stop
command. -/
theorem dispatcher_codes_in_observed_set (req : CommandRequest) :
    (process_request srcHandlers req).token = req.token ∧
    (process_request srcHandlers req).statusCode ∈ ([200, 404, 500, 999] : List Int) := by
  refine ⟨rfl, ?_⟩
  rcases route_simple_src_result req.name req.payload with h | h | h | h | h <;>
    simp [process_request, h]

/-- Claim C5 (confirmed): status() evaluates (errorFlag, actuatorReady) in
priority order — error wins, then missing readiness, then Ready — and its
value is always one of the three labels; the spec's AwaitingActuator label
is the source's "AwaitingSlave" string. -/
theorem status_priority_order :
    (∀ r : Bool, status true r = "Error") ∧
    status false false = "AwaitingSlave" ∧
    status false true = "Ready" ∧
    (∀ e r : Bool, status e r = "Error" ∨ status e r = "AwaitingSlave" ∨
      status e r = "Ready") := by
  refine ⟨fun r => by cases r <;> rfl, rfl, rfl, fun e r => ?_⟩
  cases e <;> cases r <;> simp [status]

/-- Claim C6 (confirmed): with every delivery attempt succeeding, the
sender delivers the enqueued messages exactly in enqueue order (FIFO), and
hence the projection onto any single producer's messages is that
producer's insertion order. -/
theorem sender_fifo_no_failures (msgs : List Msg)
    (h : ∀ m ∈ msgs, m.kind = "telemetry" ∨ m.kind = "propertyUpdate") :
    (∀ (cl : IotClient),
      sender_run_ok msgs.length cl { queue := msgs, delivered := [] } =
        { queue := [], delivered := msgs }) ∧
    (∀ (p : Msg → Bool) (cl : IotClient),
      ((sender_run_ok msgs.length cl { queue := msgs, delivered := [] }).delivered).filter p =
        msgs.filter p) := by
  have main := sender_run_ok_spec msgs h
  constructor
  · intro cl
    simpa using main cl []
  · intro p cl
    rw [main cl []]
    simp

/-- Witness for C6: three producer messages are delivered in their enqueue
order by the no-failure sender run. -/
theorem sender_fifo_no_failures_witness :
    (∀ m ∈ fifoMsgs, m.kind = "telemetry" ∨ m.kind = "propertyUpdate") ∧
    sender_run_ok fifoMsgs.length { connected := false, handlerRegistered := false }
        { queue := fifoMsgs, delivered := [] } =
      { queue := [], delivered := fifoMsgs } :=
  ⟨by decide,
   (sender_fifo_no_failures fifoMsgs (by decide)).1
     { connected := false, handlerRegistered := false }⟩

/-- Claim C7 (confirmed): an unknown command name, in either dispatcher
file, is answered synchronously with ("Unknown command", 404) carrying the
request's token, whatever the payload — and whatever the registered
handlers do, so no handler is invoked. -/
theorem unknown_command_yields_404 :
    (∀ (h : Handlers) (p : Payload) (tok : Nat),
        process_request h { name := "doesNotExist", payload := p, token := tok } =
          { token := tok, statusCode := 404, body := "Unknown command" }) ∧
    (∀ (restartHandler : Payload → Except PyExc (String × Int)) (p : Payload) (tok : Nat),
        process_request_thread restartHandler
            { name := "doesNotExist", payload := p, token := tok } =
          { token := tok, statusCode := 404, body := "Unknown command" }) :=
  ⟨fun _ _ _ => rfl, fun _ _ _ => rfl⟩

/-- Claim C8 counterexample: the schedule in which the spawned
restart_slave_task thread runs to completion before the dispatcher sends
its response is a valid interleaving of the source's two threads, and in
it the response is NOT sent before readiness changes — the spawned thread
clears SLAVE_READY_STATE as its first action, and nothing in the source
orders the response before that write. -/
theorem restart_readiness_can_change_before_response :
    eagerWorkerSched ∈ validSchedules ∧
    ¬ eagerWorkerSched.indexOf Ev.respond < eagerWorkerSched.indexOf Ev.setFalse := by
  decide

/-- Claim C8 (amended): in every valid schedule of a restart command, the
spawned task's first action sets actuatorReady to false and its last
action — after the delay sleep and the power cycle — sets it back to true;
the dispatcher always performs spawn then respond, so the final state has
the response sent and readiness restored for any initial readiness; and
the side effect never blocks the response, since the schedule that sends
the response before any worker action is itself valid.  No order between
the response and the readiness changes is guaranteed. -/
theorem restart_async_side_effect :
    (∀ s ∈ validSchedules,
      s.filter (fun e => restartTaskEvs.contains e) = restartTaskEvs ∧
      s.filter (fun e => dispatcherEvs.contains e) = dispatcherEvs ∧
      s.indexOf Ev.setFalse < s.indexOf Ev.sleepDelay ∧
      s.indexOf Ev.sleepDelay < s.indexOf Ev.powerCycle ∧
      s.indexOf Ev.powerCycle < s.indexOf Ev.setTrue ∧
      (∀ b : Bool, runSched s { ready := b, responded := false } =
        { ready := true, responded := true })) ∧
    (dispatcherEvs ++ restartTaskEvs) ∈ validSchedules ∧
    (dispatcherEvs ++ restartTaskEvs).indexOf Ev.respond <
      (dispatcherEvs ++ restartTaskEvs).indexOf Ev.setFalse := by
  decide

/-- Witness for C8: the eager-worker schedule is valid, and on it the
worker's events still happen in program order with readiness restored and
the response sent at the end. -/
theorem restart_async_side_effect_witness :
    eagerWorkerSched ∈ validSchedules ∧
    eagerWorkerSched.filter (fun e => restartTaskEvs.contains e) = restartTaskEvs ∧
    runSched eagerWorkerSched { ready := true, responded := false } =
      { ready := true, responded := true } :=
  ⟨by decide,
   (restart_async_side_effect.1 eagerWorkerSched (by decide)).1,
   (restart_async_side_effect.1 eagerWorkerSched (by decide)).2.2.2.2.2 true⟩

/-- Claim C9 (confirmed): a None message makes both embeddings of
send_with_timeout return True at once, with the executor never submitting
a delivery — nothing to send is success at the public interface. -/
theorem none_message_send_returns_true :
    ∀ (o : SendOutcome),
      send_with_timeout o none = { result := PyResult.ret true, submits := 0 } ∧
      Client.send_with_timeout o none = { result := PyResult.ret true, submits := 0 } :=
  fun _ => ⟨rfl, rfl⟩

/-- Claim C10 counterexample: a message of the unknown kind "stateUpdate"
makes send_with_timeout RETURN the boolean False — the unbound-future
NameError is raised inside the try block and caught by the generic except
Exception handler — instead of raising as the claim states (the future is
indeed never bound: 0 submits). -/
theorem unknown_kind_send_returns_false_cex :
    send_with_timeout SendOutcome.delivered
        (some { kind := "stateUpdate", payload := "p" }) =
      { result := PyResult.ret false, submits := 0 } := rfl

/-- Claim C10 (amended): for every non-None message whose kind is neither
"telemetry" nor "propertyUpdate", the delivery future is never bound and
the resulting NameError is caught by the trailing except-Exception clause,
so send_with_timeout returns the boolean False — the function is total on
all message kinds. -/
theorem unknown_kind_send_returns_false (o : SendOutcome) (m : Msg)
    (h1 : m.kind ≠ "telemetry") (h2 : m.kind ≠ "propertyUpdate") :
    send_with_timeout o (some m) = { result := PyResult.ret false, submits := 0 } := by
  have hb : boundFuture o m.kind = none := by
    unfold boundFuture
    rw [if_neg h1, if_neg h2]
  simp only [send_with_timeout, hb]
  rfl

/-- Witness for C10: the "stateUpdate" kind is neither known kind, and the
amended theorem evaluates to the False return with no submission. -/
theorem unknown_kind_send_returns_false_witness :
    ("stateUpdate" : String) ≠ "telemetry" ∧
    ("stateUpdate" : String) ≠ "propertyUpdate" ∧
    send_with_timeout SendOutcome.timeout
        (some { kind := "stateUpdate", payload := "p" }) =
      { result := PyResult.ret false, submits := 0 } :=
  ⟨by decide, by decide,
   unknown_kind_send_returns_false SendOutcome.timeout
     { kind := "stateUpdate", payload := "p" } (by decide) (by decide)⟩

end IotAzure
